import Mathlib

/-!
Shallow embedding of `src/src/main.cpp` from the esp8266_led_display repository
(an ESP8266-driven 4x(8x8) MAX7219 LED clock).

Modelling conventions:
* the EEPROM is a byte-addressed store `Nat → Nat` (each cell holds a `uint8_t`
  value, written modulo 256 exactly as the source masks with `& 0xFF`);
* `uint32_t` quantities are `Nat` taken modulo `2^32` where the source converts
  from a signed value (`u32`); the `(uint8_t)` conversion in the glyph renderer
  is `u8`, an explicit `% 256` on the signed intermediate, matching C's
  conversion-to-unsigned semantics;
* the font (`fonts.h`) and the MAX7219 driver (`max7219.h`) are external
  collaborators of the repository; the font is modelled as an opaque byte table
  `Font` read through `Font.byte` (the counterpart of `pgm_read_byte(font + k)`),
  and the driver's frame buffer `scr` as a function `Nat → Nat`; `clr` zeroes it
  and `refreshAll` is modelled by counting pushes;
* `NUM_MAX` is 4, per the file's own header comment ("4x (8x8) ... display");
  the glyph renderer is nonetheless kept parametric in it;
* the busy-wait loops of `connect_to_wifi` / `update_NTP_time` are modelled with
  explicit fuel and a sequence of `millis()` readings `clock : Nat → Nat`
  (reading 0 is the one taken before the loop); `millis()` wraparound at 2^32
  (49.7 days) is idealised away, as a single bounded attempt lasts seconds.
-/

/-! ### Constants from the source's define block -/

def EEPROM_HAS_BEEN_INITIALIZED : Nat := 1

def ASCII_NUMERAL_0_OFFSET : Nat := 48

/-- `#define DEFAULT_BRIGHTNESS 0x4U` -/
def DEFAULT_BRIGHTNESS : Nat := 4

/-- `#define DEFAULT_DISPLAY_MODE false`, stored in the `uint32_t` global
`display_mode` (false = 0). -/
def DEFAULT_DISPLAY_MODE : Nat := 0

/-- `#define DEFAULT_12H_24H_MODE _12H_MODE` with `_12H_MODE` = `true`, stored
in the `uint32_t` global `display_time_in_24_h` (true = 1). -/
def DEFAULT_12H_24H_MODE : Nat := 1

/-- `#define DEFAULT_TIME_OFFSET (60L * 60L * -7L)` -/
def DEFAULT_TIME_OFFSET : Int := 60 * 60 * (-7)

/-- `#define WIFI_TIMEOUT 10000UL` (milliseconds) -/
def WIFI_TIMEOUT : Nat := 10000

/-- `#define NTP_CONNECTION_TIMEOUT (1000UL * 2UL)` (milliseconds) -/
def NTP_CONNECTION_TIMEOUT : Nat := 1000 * 2

def EEPROM_BYTE_OFFSET : Nat := 4

def EEPROM_INIT_ADDRESS : Nat := 0x00 * EEPROM_BYTE_OFFSET

def EEPROM_BRIGHTNESS_ADDRESS : Nat := 0x01 * EEPROM_BYTE_OFFSET

def EEPROM_DISPLAY_MODE_ADDRESS : Nat := 0x02 * EEPROM_BYTE_OFFSET

def EEPROM_12H_24H_ADDRESS : Nat := 0x03 * EEPROM_BYTE_OFFSET

def EEPROM_TIME_OFFSET_ADDRESS : Nat := 0x04 * EEPROM_BYTE_OFFSET

/-- `NUM_MAX` (number of chained 8x8 modules, from the display library's
configuration): 4, per the source's own header comment. -/
def NUM_MAX : Nat := 4

/-- The `uint32_t` bit pattern of a signed value (C conversion to unsigned). -/
def u32 (z : Int) : Nat := (z % (2 ^ 32)).toNat

/-! ### EEPROM primitives (`write_32_bit_EEPROM_value`, `read_32_bit_EEPROM_value`)

The write loop is `for(int i=0; i<3; i++)`: each pass stores `value & 0xFF` at
`address+i` and shifts `value` right by 8.  The read loop is also `i<3`, and
folds with `combined_value = combined_value & (EEPROM.read(address+i) << i*8)`
into an accumulator that starts at 0 — the `&` is exactly what the source does.
-/

def write_32_loop : Nat → Nat → Nat → (Nat → Nat) → (Nat → Nat)
  | 0, _, _, mem => mem
  | n + 1, address, value, mem =>
      write_32_loop n (address + 1) (value / 256)
        (Function.update mem address (value % 256))

def write_32_bit_EEPROM_value (address value : Nat) (mem : Nat → Nat) : Nat → Nat :=
  write_32_loop 3 address value mem

def read_32_loop (mem : Nat → Nat) (address : Nat) : Nat → Nat → Nat → Nat
  | 0, _, combined_value => combined_value
  | n + 1, i, combined_value =>
      read_32_loop mem address n (i + 1)
        (Nat.land combined_value ((mem (address + i)) <<< (i * 8)))

def read_32_bit_EEPROM_value (address : Nat) (mem : Nat → Nat) : Nat :=
  read_32_loop mem address 3 0 0

/-! ### Settings globals, `init_EEPROM`, `restore_from_EEPROM`, and the EEPROM
part of `setup` -/

/-- The four settings globals of the source
(`display_brightness`, `display_mode`, `display_time_in_24_h`,
`current_time_offset`), all `uint32_t`. -/
structure Settings where
  display_brightness : Nat
  display_mode : Nat
  display_time_in_24_h : Nat
  current_time_offset : Nat

/-- The compiled-in initial values of the settings globals. -/
def default_settings : Settings :=
  { display_brightness := DEFAULT_BRIGHTNESS
    display_mode := DEFAULT_DISPLAY_MODE
    display_time_in_24_h := DEFAULT_12H_24H_MODE
    current_time_offset := u32 DEFAULT_TIME_OFFSET }

/-- `init_EEPROM`: writes the init marker `0x01U` and then the four defaults,
in source order. -/
def init_EEPROM (mem : Nat → Nat) : Nat → Nat :=
  write_32_bit_EEPROM_value EEPROM_TIME_OFFSET_ADDRESS (u32 DEFAULT_TIME_OFFSET)
    (write_32_bit_EEPROM_value EEPROM_12H_24H_ADDRESS DEFAULT_12H_24H_MODE
      (write_32_bit_EEPROM_value EEPROM_DISPLAY_MODE_ADDRESS DEFAULT_DISPLAY_MODE
        (write_32_bit_EEPROM_value EEPROM_BRIGHTNESS_ADDRESS DEFAULT_BRIGHTNESS
          (write_32_bit_EEPROM_value EEPROM_INIT_ADDRESS 1 mem))))

/-- `restore_from_EEPROM`: loads the four settings globals from the EEPROM. -/
def restore_from_EEPROM (mem : Nat → Nat) : Settings :=
  { display_brightness := read_32_bit_EEPROM_value EEPROM_BRIGHTNESS_ADDRESS mem
    display_mode := read_32_bit_EEPROM_value EEPROM_DISPLAY_MODE_ADDRESS mem
    display_time_in_24_h := read_32_bit_EEPROM_value EEPROM_12H_24H_ADDRESS mem
    current_time_offset := read_32_bit_EEPROM_value EEPROM_TIME_OFFSET_ADDRESS mem }

/-- Observable outcome of the boot path in `setup` (the parts relevant to the
persistent settings): the settings globals after boot, the EEPROM contents
after boot, the argument of the `sendCmdAll(CMD_INTENSITY, _)` command, the UTC
offset the `NTPClient` object carries (fixed at its construction with
`DEFAULT_TIME_OFFSET`; the source never calls `setTimeOffset`), and whether
`init_EEPROM` ran (observable through its "EEPROM Reset to default values."
serial message). -/
structure SetupResult where
  settings : Settings
  mem : Nat → Nat
  intensity_arg : Nat
  ntp_offset : Int
  did_init : Bool

/-- The settings/EEPROM path of `setup`:
`if(EEPROM.read(EEPROM_INIT_ADDRESS) != EEPROM_HAS_BEEN_INITIALIZED || FORCE_EEPROM_INIT)`
then `init_EEPROM()` (the globals keep their compiled-in initial values),
else `restore_from_EEPROM()`.  Afterwards the display is initialised with
`sendCmdAll(CMD_INTENSITY, DEFAULT_BRIGHTNESS)` — the literal macro, not the
`display_brightness` global — and the `NTPClient` keeps the offset it was
constructed with. -/
def setup (FORCE_EEPROM_INIT : Bool) (mem : Nat → Nat) : SetupResult :=
  if mem EEPROM_INIT_ADDRESS ≠ EEPROM_HAS_BEEN_INITIALIZED ∨ FORCE_EEPROM_INIT = true then
    { settings := default_settings
      mem := init_EEPROM mem
      intensity_arg := DEFAULT_BRIGHTNESS
      ntp_offset := DEFAULT_TIME_OFFSET
      did_init := true }
  else
    { settings := restore_from_EEPROM mem
      mem := mem
      intensity_arg := DEFAULT_BRIGHTNESS
      ntp_offset := DEFAULT_TIME_OFFSET
      did_init := false }

/-! ### Glyph rendering (`reverse`, `render_font_char_to_buffer`) -/

/-- The external font table: `Font.byte k` models `pgm_read_byte(font + k)`.
Byte 0 is the per-character stride `font_data_width`. -/
structure Font where
  byte : Nat → Nat

/-- The nibble-reversal table `lookup` from the source. -/
def lookup : List Nat := [0, 8, 4, 12, 2, 10, 6, 14, 1, 9, 5, 13, 3, 11, 7, 15]

/-- `reverse`: 8-bit byte reversal, `(lookup[n&0b1111] << 4) | lookup[n>>4]`
(`n` is a `uint8_t`, so `n >> 4` is `n / 16 % 16`). -/
def reverse (n : Nat) : Nat :=
  Nat.lor ((lookup.getD (n % 16) 0) <<< 4) (lookup.getD (n / 16 % 16) 0)

/-- The C conversion of a signed `int` to `uint8_t`: reduction modulo 256. -/
def u8 (z : Int) : Nat := (z % 256).toNat

/-- The offset computation of the inner column loop:
`uint8_t offset = row_count - (x_offset + font_char_column + 1)` with
`row_count = NUM_MAX*8` (a `uint16_t`); the arithmetic happens in `int` and the
assignment converts to `uint8_t`, i.e. reduces modulo 256. -/
def colOffset (numMax : Nat) (x_offset : Int) (font_char_column : Nat) : Nat :=
  u8 ((numMax * 8 : Int) - (x_offset + font_char_column + 1))

/-- The inner column loop of `render_font_char_to_buffer`:
`while (font_char_column < font_char_width)` — the fuel is
`font_char_width - font_char_column`.  Each pass computes `colOffset`, breaks
when `offset >= NUM_MAX*8 + 8`, and otherwise stores the reversed font byte at
`scr[offset]`. -/
def renderCharCols (f : Font) (numMax font_data_offset : Nat) (x_offset : Int) :
    Nat → Nat → (Nat → Nat) → (Nat → Nat)
  | 0, _, buf => buf
  | fuel + 1, font_char_column, buf =>
      if numMax * 8 + 8 ≤ colOffset numMax x_offset font_char_column then buf
      else
        renderCharCols f numMax font_data_offset x_offset fuel (font_char_column + 1)
          (Function.update buf (colOffset numMax x_offset font_char_column)
            (reverse (f.byte (font_data_offset + 1 + font_char_column))))

/-- `render_font_char_to_buffer`: walks the NUL-terminated string (modelled as
the list of its character codes), laying each glyph out at increasing
`x_offset` (an `int` in the source); `font_data_offset = 1 + font_data_width *
character` and `font_char_width` is the glyph's own width byte. -/
def render_font_char_to_buffer (f : Font) (numMax : Nat) :
    List Nat → Int → (Nat → Nat) → (Nat → Nat)
  | [], _, buf => buf
  | character :: rest, x_offset, buf =>
      let font_data_width := f.byte 0
      let font_data_offset := 1 + font_data_width * character
      let font_char_width := f.byte font_data_offset
      render_font_char_to_buffer f numMax rest (x_offset + font_char_width + 1)
        (renderCharCols f numMax font_data_offset x_offset font_char_width 0 buf)

/-- Total horizontal advance of a string: each character advances
`font_char_width + 1` columns. -/
def totalAdvance (f : Font) : List Nat → Nat
  | [] => 0
  | character :: rest =>
      (f.byte (1 + f.byte 0 * character) + 1) + totalAdvance f rest

/-- The intended (signed) target indices of one glyph's columns at `x_offset`:
column `col` targets `NUM_MAX*8 - (x_offset + col + 1)`. -/
def charTargets (x_offset : Int) (w : Nat) : List Int :=
  (List.range w).map fun col : Nat => (NUM_MAX * 8 : Int) - (x_offset + (col : Int) + 1)

/-- The intended (signed) target indices of every glyph column of a string. -/
def stringTargets (f : Font) : List Nat → Int → List Int
  | [], _ => []
  | character :: rest, x_offset =>
      let font_data_offset := 1 + f.byte 0 * character
      let font_char_width := f.byte font_data_offset
      charTargets x_offset font_char_width ++
        stringTargets f rest (x_offset + font_char_width + 1)

/-! ### Display paths (`clr`, `display_error_pattern`, `print_time_from_NTP`) -/

/-- `clr()` from the display library zeroes the whole frame buffer. -/
def clr : Nat → Nat := fun _ => 0

/-- The character codes of the literal string "ConnErr". -/
def CONN_ERR_STRING : List Nat := [67, 111, 110, 110, 69, 114, 114]

/-- The mutable state touched by the display paths: the `last_seconds` global,
the `print_string_buffer` contents (as the character list up to the NUL), the
frame buffer `scr`, and a counter of `refreshAll()` hardware pushes. -/
structure RenderState where
  last_seconds : Nat
  print_string_buffer : List Nat
  scr : Nat → Nat
  pushes : Nat

/-- `display_error_pattern()`: renders "ConnErr" into `scr` **without clearing
it first** and pushes the frame. -/
def display_error_pattern (f : Font) (st : RenderState) : RenderState :=
  { st with
    scr := render_font_char_to_buffer f NUM_MAX CONN_ERR_STRING 0 st.scr
    pushes := st.pushes + 1 }

/-- The DST adjustment at the top of `print_time_from_NTP`:
`if(DST_is_active) { hours = hours + 1; if(hours > 24) hours = 0; }`. -/
def dst_adjusted_hours (DST_is_active : Bool) (hours : Nat) : Nat :=
  if DST_is_active then (if hours + 1 > 24 then 0 else hours + 1) else hours

/-- The 12-hour correction of `print_time_from_NTP`:
`if(!display_time_in_24_h) { if(hours > 12) hours -= 12; else if(hours == 0)
hours = 12; }`  (`!` on the `uint32_t` global is true exactly when it is 0). -/
def hours_12h_display (display_time_in_24_h hours : Nat) : Nat :=
  if display_time_in_24_h = 0 then
    (if hours > 12 then hours - 12 else if hours = 0 then 12 else hours)
  else hours

/-- The eight characters written into `print_string_buffer[0..7]` (position 8
gets the NUL): hours tens digit (or a space when `hours < 10`), hours units,
':', minutes digits, ':', seconds digits. -/
def time_chars (hours minutes seconds : Nat) : List Nat :=
  [if hours ≥ 10 then hours / 10 + ASCII_NUMERAL_0_OFFSET else 32,
   hours % 10 + ASCII_NUMERAL_0_OFFSET,
   58,
   minutes / 10 + ASCII_NUMERAL_0_OFFSET,
   minutes % 10 + ASCII_NUMERAL_0_OFFSET,
   58,
   seconds / 10 + ASCII_NUMERAL_0_OFFSET,
   seconds % 10 + ASCII_NUMERAL_0_OFFSET]

/-- `print_time_from_NTP()`: DST-adjust and 12/24h-convert the NTP hours, then,
only when `last_seconds != seconds`, format the full `HH:MM:SS` string, `clr()`
the frame buffer, render the string, and `refreshAll()`.  Otherwise only
`last_seconds` is (re)assigned.  The `display_mode` (seconds-visible) global is
a parameter here because it is in scope in the source — the body never reads
it. -/
def print_time_from_NTP (f : Font) (DST_is_active : Bool)
    (display_time_in_24_h display_mode : Nat)
    (ntp_hours ntp_minutes ntp_seconds : Nat) (st : RenderState) : RenderState :=
  let hours := hours_12h_display display_time_in_24_h
    (dst_adjusted_hours DST_is_active ntp_hours)
  let minutes := ntp_minutes
  let seconds := ntp_seconds
  if st.last_seconds ≠ seconds then
    { last_seconds := seconds
      print_string_buffer := time_chars hours minutes seconds
      scr := render_font_char_to_buffer f NUM_MAX (time_chars hours minutes seconds) 0 clr
      pushes := st.pushes + 1 }
  else
    { st with last_seconds := seconds }

/-! ### Bounded busy-polls (`connect_to_wifi`, `update_NTP_time`) -/

/-- The shared shape of both busy-wait loops: at iteration `n`, first the
success condition is polled (`WiFi.status() == WL_CONNECTED`, resp.
`timeClient.update()`); on success return `true`; otherwise compare the `n`-th
`millis()` reading against the deadline and return `false` once it is reached;
otherwise loop.  `none` means the fuel ran out before either exit. -/
def timeout_poll (ok : Nat → Bool) (clock : Nat → Nat) (deadline : Nat) :
    Nat → Nat → Option Bool
  | 0, _ => none
  | fuel + 1, n =>
      if ok n then some true
      else if deadline ≤ clock n then some false
      else timeout_poll ok clock deadline fuel (n + 1)

/-- `connect_to_wifi()`: `wifi_connection_timeout = millis()` (reading 0), then
poll `WiFi.status()` with deadline `wifi_connection_timeout + WIFI_TIMEOUT`. -/
def connect_to_wifi (ok : Nat → Bool) (clock : Nat → Nat) (fuel : Nat) : Option Bool :=
  timeout_poll ok clock (clock 0 + WIFI_TIMEOUT) fuel 1

/-- `update_NTP_time()`: `ntp_connection_start_time = millis()` (reading 0),
then poll `timeClient.update()` with deadline
`NTP_CONNECTION_TIMEOUT + ntp_connection_start_time`. -/
def update_NTP_time (ok : Nat → Bool) (clock : Nat → Nat) (fuel : Nat) : Option Bool :=
  timeout_poll ok clock (NTP_CONNECTION_TIMEOUT + clock 0) fuel 1

/-! ### Concrete instances used by counterexamples and witnesses -/

/-- A minimal concrete font: every byte of the table is 1, so every character
has stride 1, width 1, and column bitmap `0b00000001` (any real proportional
font likewise contains glyphs of nonzero width). -/
def cexFont : Font := { byte := fun _ => 1 }

/-- An EEPROM image whose init-marker byte is 2 (nonzero, but different from
`EEPROM_HAS_BEEN_INITIALIZED`), with a stored brightness byte of 9. -/
def mem_marker2 : Nat → Nat :=
  Function.update (Function.update (fun _ => 0) EEPROM_INIT_ADDRESS 2)
    EEPROM_BRIGHTNESS_ADDRESS 9

/-! ## Helper lemmas -/

theorem read_32_loop_zero (mem : Nat → Nat) (address : Nat) :
    ∀ n i, read_32_loop mem address n i 0 = 0 := by
  intro n
  induction n with
  | zero => intro i; rfl
  | succ n ih =>
      intro i
      have h : Nat.land 0 ((mem (address + i)) <<< (i * 8)) = 0 := Nat.zero_and _
      simp only [read_32_loop, h]
      exact ih (i + 1)

theorem write_32_loop_out (i : Nat) :
    ∀ n address value mem, (i < address ∨ address + n ≤ i) →
      write_32_loop n address value mem i = mem i := by
  intro n
  induction n with
  | zero => intro address value mem _; rfl
  | succ n ih =>
      intro address value mem h
      simp only [write_32_loop]
      rw [ih (address + 1) (value / 256) _ (by omega)]
      exact Function.update_noteq (by omega) _ mem

theorem write_32_bit_EEPROM_value_out (address value i : Nat) (mem : Nat → Nat)
    (h : i < address ∨ address + 3 ≤ i) :
    write_32_bit_EEPROM_value address value mem i = mem i :=
  write_32_loop_out i 3 address value mem h

theorem write_32_bit_EEPROM_value_first (address value : Nat) (mem : Nat → Nat) :
    write_32_bit_EEPROM_value address value mem address = value % 256 := by
  simp only [write_32_bit_EEPROM_value, write_32_loop, Function.update_apply]
  split_ifs <;> omega

theorem init_EEPROM_marker (mem : Nat → Nat) :
    init_EEPROM mem EEPROM_INIT_ADDRESS = EEPROM_HAS_BEEN_INITIALIZED := by
  unfold init_EEPROM
  rw [write_32_bit_EEPROM_value_out _ _ _ _ (by norm_num [EEPROM_TIME_OFFSET_ADDRESS,
    EEPROM_BYTE_OFFSET, EEPROM_INIT_ADDRESS])]
  rw [write_32_bit_EEPROM_value_out _ _ _ _ (by norm_num [EEPROM_12H_24H_ADDRESS,
    EEPROM_BYTE_OFFSET, EEPROM_INIT_ADDRESS])]
  rw [write_32_bit_EEPROM_value_out _ _ _ _ (by norm_num [EEPROM_DISPLAY_MODE_ADDRESS,
    EEPROM_BYTE_OFFSET, EEPROM_INIT_ADDRESS])]
  rw [write_32_bit_EEPROM_value_out _ _ _ _ (by norm_num [EEPROM_BRIGHTNESS_ADDRESS,
    EEPROM_BYTE_OFFSET, EEPROM_INIT_ADDRESS])]
  rw [write_32_bit_EEPROM_value_first]
  decide

/-! ## Claim theorems -/

/-- Claim C1 (code_bug): the settings round trip does **not** reproduce the
written values.  `read_32_bit_EEPROM_value` folds the stored bytes into its
accumulator with `&` (bitwise AND) starting from 0, so it returns 0 for every
address and every memory content; in particular writing brightness 9 and
reading it back yields 0, not 9 (and writing -21600 yields 0, not -21600). -/
theorem read_32_bit_EEPROM_value_roundtrip_bug :
    (∀ address mem, read_32_bit_EEPROM_value address mem = 0) ∧
    read_32_bit_EEPROM_value EEPROM_BRIGHTNESS_ADDRESS
      (write_32_bit_EEPROM_value EEPROM_BRIGHTNESS_ADDRESS 9 (fun _ => 0)) ≠ 9 ∧
    read_32_bit_EEPROM_value EEPROM_TIME_OFFSET_ADDRESS
      (write_32_bit_EEPROM_value EEPROM_TIME_OFFSET_ADDRESS (u32 (-21600)) (fun _ => 0)) ≠
      u32 (-21600) := by
  have hz : ∀ address mem, read_32_bit_EEPROM_value address mem = 0 := by
    intro address mem
    exact read_32_loop_zero mem address 3 0
  refine ⟨hz, ?_, ?_⟩
  · rw [hz]; decide
  · rw [hz]; decide

/-- Claim C3 (code_bug): the stored settings are never applied.  For every
EEPROM content and force flag, `setup` sends the intensity command with the
compiled-in `DEFAULT_BRIGHTNESS` (the source passes the macro, not the
`display_brightness` global) and the NTP client keeps the compiled-in
`DEFAULT_TIME_OFFSET` it was constructed with (`setTimeOffset` is never
called).  Moreover, even on the restore path (marker byte forced to 1) the
restored brightness is 0 — not the stored value — because of the read bug. -/
theorem setup_ignores_stored_settings (FORCE_EEPROM_INIT : Bool) (mem : Nat → Nat) :
    (setup FORCE_EEPROM_INIT mem).intensity_arg = DEFAULT_BRIGHTNESS ∧
    (setup FORCE_EEPROM_INIT mem).ntp_offset = DEFAULT_TIME_OFFSET ∧
    (setup false (Function.update mem EEPROM_INIT_ADDRESS 1)).settings.display_brightness = 0 := by
  refine ⟨?_, ?_, ?_⟩
  · unfold setup; split <;> rfl
  · unfold setup; split <;> rfl
  · unfold setup
    rw [if_neg (by simp [EEPROM_HAS_BEEN_INITIALIZED])]
    exact read_32_loop_zero _ _ 3 0

/-- Claim C5 (code_bug): the DST wrap is off by one.  The source tests
`if(hours > 24) hours = 0;` after the increment, so an asserted DST with raw
hour 23 yields adjusted hour 24 — not 0 as the claim (and the evident intent
of the wrap guard) requires.  The guard branch is dead for all raw hours in
[0, 23]. -/
theorem dst_adjusted_hours_23_bug :
    dst_adjusted_hours true 23 = 24 ∧ dst_adjusted_hours true 23 ≠ 0 := by
  decide

/-- Claim C6 (corrected): the boot check is
`EEPROM.read(EEPROM_INIT_ADDRESS) != EEPROM_HAS_BEEN_INITIALIZED`, an equality
test against the single byte value 1 — not a nonzero test.  A stored marker
byte of 2 is nonzero, yet `setup` reruns `init_EEPROM`, overwriting the stored
brightness byte 9 with the default 4. -/
theorem setup_nonzero_marker_counterexample :
    mem_marker2 EEPROM_INIT_ADDRESS = 2 ∧
    mem_marker2 EEPROM_INIT_ADDRESS ≠ 0 ∧
    (setup false mem_marker2).did_init = true ∧
    mem_marker2 EEPROM_BRIGHTNESS_ADDRESS = 9 ∧
    (setup false mem_marker2).mem EEPROM_BRIGHTNESS_ADDRESS = DEFAULT_BRIGHTNESS := by
  decide

/-- Claim C6 (amended): on boot the defaults are repopulated exactly when the
marker byte differs from `EEPROM_HAS_BEEN_INITIALIZED` (= 1) or the force-reset
flag is set; after initialization the marker byte is 1, so a second boot (with
the force flag clear) never rewrites the defaults. -/
theorem setup_marker_semantics_amended (FORCE_EEPROM_INIT : Bool) (mem : Nat → Nat) :
    ((setup FORCE_EEPROM_INIT mem).did_init = true ↔
      (mem EEPROM_INIT_ADDRESS ≠ EEPROM_HAS_BEEN_INITIALIZED ∨ FORCE_EEPROM_INIT = true)) ∧
    (setup true mem).mem EEPROM_INIT_ADDRESS = EEPROM_HAS_BEEN_INITIALIZED ∧
    (setup false ((setup true mem).mem)).did_init = false := by
  refine ⟨?_, ?_, ?_⟩
  · unfold setup
    split <;> rename_i h <;> simp [h]
  · unfold setup
    rw [if_pos (Or.inr rfl)]
    exact init_EEPROM_marker mem
  · unfold setup
    rw [if_pos (Or.inr rfl)]
    rw [if_neg (by simp [init_EEPROM_marker mem])]

/-- Claim C8 (confirmed): when 12-hour mode is selected
(`display_time_in_24_h = 0`), every wall-clock hour in [0, 23] is mapped into
[1, 12], with 0 ↦ 12, values above 12 reduced by 12, and values in [1, 12]
unchanged. -/
theorem hours_12h_display_correct (h : Nat) (hh : h ≤ 23) :
    (1 ≤ hours_12h_display 0 h ∧ hours_12h_display 0 h ≤ 12) ∧
    (h = 0 → hours_12h_display 0 h = 12) ∧
    (12 < h → hours_12h_display 0 h = h - 12) ∧
    (1 ≤ h → h ≤ 12 → hours_12h_display 0 h = h) := by
  simp only [hours_12h_display, if_pos rfl]
  split_ifs <;> omega

/-- Witness for C8 at the concrete hour 13. -/
theorem hours_12h_display_correct_witness : hours_12h_display 0 13 = 13 - 12 :=
  (hours_12h_display_correct 13 (by decide)).2.2.1 (by decide)

/-- Claim C9 (confirmed): `print_time_from_NTP` composes a frame and pushes it
to the hardware exactly when the current seconds value differs from
`last_seconds`; when they are equal, nothing is pushed and the frame buffer and
string buffer are untouched; a second call with the same seconds value (even
with different hours/minutes) never produces a second push. -/
theorem print_time_redraw_gating (f : Font) (DST_is_active : Bool)
    (d24 dm hrs mins secs : Nat) (st : RenderState) :
    ((print_time_from_NTP f DST_is_active d24 dm hrs mins secs st).pushes = st.pushes + 1 ↔
      st.last_seconds ≠ secs) ∧
    (st.last_seconds = secs →
      (print_time_from_NTP f DST_is_active d24 dm hrs mins secs st).scr = st.scr ∧
      (print_time_from_NTP f DST_is_active d24 dm hrs mins secs st).pushes = st.pushes ∧
      (print_time_from_NTP f DST_is_active d24 dm hrs mins secs st).print_string_buffer =
        st.print_string_buffer) ∧
    (∀ hrs2 mins2 : Nat,
      (print_time_from_NTP f DST_is_active d24 dm hrs2 mins2 secs
        (print_time_from_NTP f DST_is_active d24 dm hrs mins secs st)).pushes =
      (print_time_from_NTP f DST_is_active d24 dm hrs mins secs st).pushes) := by
  by_cases hg : st.last_seconds = secs
  · refine ⟨?_, fun _ => ?_, fun hrs2 mins2 => ?_⟩
    · simp [print_time_from_NTP, hg]
    · simp [print_time_from_NTP, hg]
    · simp [print_time_from_NTP, hg]
  · refine ⟨?_, fun h => absurd h hg, fun hrs2 mins2 => ?_⟩
    · simp [print_time_from_NTP, hg]
    · simp [print_time_from_NTP, hg]

/-- Witness for C9: with `last_seconds = 5` and current seconds 5, the frame
buffer, push counter and string buffer are all unchanged. -/
theorem print_time_redraw_gating_witness :
    (print_time_from_NTP cexFont false 1 0 1 2 5
      { last_seconds := 5, print_string_buffer := [], scr := clr, pushes := 0 }).scr = clr ∧
    (print_time_from_NTP cexFont false 1 0 1 2 5
      { last_seconds := 5, print_string_buffer := [], scr := clr, pushes := 0 }).pushes = 0 ∧
    (print_time_from_NTP cexFont false 1 0 1 2 5
      { last_seconds := 5, print_string_buffer := [], scr := clr, pushes := 0 }).print_string_buffer
      = [] :=
  (print_time_redraw_gating cexFont false 1 0 1 2 5
    { last_seconds := 5, print_string_buffer := [], scr := clr, pushes := 0 }).2.1 rfl

/-- Claim C4 (code_bug): the seconds-visible setting is never consulted.  When
the redraw gate passes, `print_time_from_NTP` always formats the full 8
character `HH:MM:SS` string — the trailing `:SS` segment included — for every
value of the `display_mode` global, and its result does not depend on
`display_mode` at all.  The claim requires `HH:MM` (no seconds segment) when
the setting is false. -/
theorem print_time_ignores_display_mode (f : Font) (DST_is_active : Bool)
    (d24 hrs mins secs : Nat) (st : RenderState) (hgate : st.last_seconds ≠ secs) :
    ∀ display_mode : Nat,
      (print_time_from_NTP f DST_is_active d24 display_mode hrs mins secs
          st).print_string_buffer =
        time_chars (hours_12h_display d24 (dst_adjusted_hours DST_is_active hrs)) mins secs ∧
      ((print_time_from_NTP f DST_is_active d24 display_mode hrs mins secs
          st).print_string_buffer).length = 8 ∧
      ((print_time_from_NTP f DST_is_active d24 display_mode hrs mins secs
          st).print_string_buffer).drop 5 =
        [58, secs / 10 + ASCII_NUMERAL_0_OFFSET, secs % 10 + ASCII_NUMERAL_0_OFFSET] ∧
      print_time_from_NTP f DST_is_active d24 display_mode hrs mins secs st =
        print_time_from_NTP f DST_is_active d24 0 hrs mins secs st := by
  intro display_mode
  refine ⟨?_, ?_, ?_, ?_⟩ <;> simp [print_time_from_NTP, hgate, time_chars]

/-- Witness for C4: at time 1:02:03 with `display_mode = 0` (seconds requested
hidden) the buffer still reads " 1:02:03". -/
theorem print_time_ignores_display_mode_witness :
    RenderState.print_string_buffer (print_time_from_NTP cexFont false 1 0 1 2 3
      { last_seconds := 0, print_string_buffer := [], scr := clr, pushes := 0 }) =
      time_chars (hours_12h_display 1 (dst_adjusted_hours false 1)) 2 3 :=
  (print_time_ignores_display_mode cexFont false 1 1 2 3
    { last_seconds := 0, print_string_buffer := [], scr := clr, pushes := 0 } (by decide) 0).1

/-- Claim C7 (corrected, counterexample): the error path does **not** clear the
frame buffer.  Starting from a frame whose column 0 holds the stale value 7,
`display_error_pattern` composes "ConnErr" on top of it and column 0 still
holds 7 afterwards — had the buffer been cleared before composition, every
column not covered by the glyphs would read 0. -/
theorem display_error_pattern_no_clear_counterexample :
    (display_error_pattern cexFont
      { last_seconds := 0, print_string_buffer := [], scr := fun _ => 7, pushes := 0 }).scr 0 = 7 ∧
    (7 : Nat) ≠ 0 := by
  decide

/-- Claim C7 (amended): only the time-rendering path clears the frame before
composition: a gate-passing `print_time_from_NTP` always composes onto the
cleared buffer, so its resulting frame is independent of the previous frame
contents; `display_error_pattern` composes over the existing buffer without
clearing. -/
theorem frame_cleared_before_composition_amended (f : Font) (DST_is_active : Bool)
    (d24 dm hrs mins secs : Nat) (st1 st2 : RenderState)
    (h1 : st1.last_seconds ≠ secs) (h2 : st2.last_seconds ≠ secs) :
    (print_time_from_NTP f DST_is_active d24 dm hrs mins secs st1).scr =
      (print_time_from_NTP f DST_is_active d24 dm hrs mins secs st2).scr ∧
    (print_time_from_NTP f DST_is_active d24 dm hrs mins secs st1).scr =
      render_font_char_to_buffer f NUM_MAX
        (time_chars (hours_12h_display d24 (dst_adjusted_hours DST_is_active hrs)) mins secs)
        0 clr := by
  constructor <;> simp [print_time_from_NTP, h1, h2]

/-- Witness for C7 (amended): two gate-passing renders of 1:02:03 from frames
holding stale values 7 and 5 produce the same composed frame. -/
theorem frame_cleared_before_composition_amended_witness :
    (print_time_from_NTP cexFont false 1 0 1 2 3
      { last_seconds := 1, print_string_buffer := [], scr := fun _ => 7, pushes := 0 }).scr =
    (print_time_from_NTP cexFont false 1 0 1 2 3
      { last_seconds := 9, print_string_buffer := [], scr := fun _ => 5, pushes := 4 }).scr :=
  (frame_cleared_before_composition_amended cexFont false 1 0 1 2 3
    { last_seconds := 1, print_string_buffer := [], scr := fun _ => 7, pushes := 0 }
    { last_seconds := 9, print_string_buffer := [], scr := fun _ => 5, pushes := 4 }
    (by decide) (by decide)).1

/-! ## Bounded-wait lemmas (C10) -/

theorem timeout_poll_returns_false (ok : Nat → Bool) (clock : Nat → Nat) (deadline : Nat)
    (hok : ∀ n, ok n = false) :
    ∀ fuel n, deadline ≤ clock (n + fuel) →
      timeout_poll ok clock deadline (fuel + 1) n = some false := by
  intro fuel
  induction fuel with
  | zero =>
      intro n h
      simp only [timeout_poll, hok n, Bool.false_eq_true, if_false]
      rw [if_pos (by simpa using h)]
  | succ fuel ih =>
      intro n h
      simp only [timeout_poll, hok n, Bool.false_eq_true, if_false]
      by_cases hd : deadline ≤ clock n
      · rw [if_pos hd]
      · rw [if_neg hd]
        have e : n + 1 + fuel = n + (fuel + 1) := by omega
        exact ih (n + 1) (by rw [e]; exact h)

theorem clock_growth (clock : Nat → Nat) (hm : ∀ n, clock n < clock (n + 1)) :
    ∀ a b, clock a + b ≤ clock (a + b) := by
  intro a b
  induction b with
  | zero => simp
  | succ b ih =>
      have h1 := hm (a + b)
      have e : a + (b + 1) = a + b + 1 := by omega
      rw [e]
      omega

/-- Claim C10 (confirmed): if the wifi association never succeeds and the NTP
update never succeeds, and the `millis()` readings strictly increase across
loop iterations, then `connect_to_wifi` and `update_NTP_time` both terminate
and return `false` (the loop exits as soon as a reading passes the start
reading plus the 10 s / 2 s timeout). -/
theorem bounded_wait_timeouts (wifi_ok ntp_ok : Nat → Bool) (clock1 clock2 : Nat → Nat)
    (hw : ∀ n, wifi_ok n = false) (hn : ∀ n, ntp_ok n = false)
    (hm1 : ∀ n, clock1 n < clock1 (n + 1)) (hm2 : ∀ n, clock2 n < clock2 (n + 1)) :
    (∃ fuel, connect_to_wifi wifi_ok clock1 fuel = some false) ∧
    (∃ fuel, update_NTP_time ntp_ok clock2 fuel = some false) := by
  constructor
  · refine ⟨WIFI_TIMEOUT + 1, ?_⟩
    apply timeout_poll_returns_false wifi_ok clock1 _ hw WIFI_TIMEOUT 1
    have := clock_growth clock1 hm1 0 (1 + WIFI_TIMEOUT)
    simp only [Nat.zero_add] at this
    omega
  · refine ⟨NTP_CONNECTION_TIMEOUT + 1, ?_⟩
    apply timeout_poll_returns_false ntp_ok clock2 _ hn NTP_CONNECTION_TIMEOUT 1
    have := clock_growth clock2 hm2 0 (1 + NTP_CONNECTION_TIMEOUT)
    simp only [Nat.zero_add] at this
    omega

/-- Witness for C10: with always-failing collaborators and the identity clock,
both attempts terminate with `false`. -/
theorem bounded_wait_timeouts_witness :
    (∃ fuel, connect_to_wifi (fun _ => false) (fun n => n) fuel = some false) ∧
    (∃ fuel, update_NTP_time (fun _ => false) (fun n => n) fuel = some false) :=
  bounded_wait_timeouts (fun _ => false) (fun _ => false) (fun n => n) (fun n => n)
    (fun _ => rfl) (fun _ => rfl) (fun n => Nat.lt_succ_self n) (fun n => Nat.lt_succ_self n)

/-! ## Render-bounds lemmas (C2) -/

theorem colOffset_cast (numMax : Nat) (x : Int) (col : Nat) :
    (colOffset numMax x col : Int) = ((numMax * 8 : Int) - (x + col + 1)) % 256 := by
  simp only [colOffset, u8]
  exact Int.toNat_of_nonneg (Int.emod_nonneg _ (by norm_num))

theorem renderCharCols_out (f : Font) (numMax fdo : Nat) (x : Int) :
    ∀ fuel col (buf : Nat → Nat) (i : Nat), numMax * 8 + 8 ≤ i →
      renderCharCols f numMax fdo x fuel col buf i = buf i := by
  intro fuel
  induction fuel with
  | zero => intro col buf i _; rfl
  | succ fuel ih =>
      intro col buf i h
      simp only [renderCharCols]
      by_cases hc : numMax * 8 + 8 ≤ colOffset numMax x col
      · rw [if_pos hc]
      · rw [if_neg hc]
        rw [ih (col + 1) _ i h]
        exact Function.update_noteq (by omega) _ buf

theorem render_font_char_to_buffer_out (f : Font) (numMax : Nat) :
    ∀ (s : List Nat) (x : Int) (buf : Nat → Nat) (i : Nat), numMax * 8 + 8 ≤ i →
      render_font_char_to_buffer f numMax s x buf i = buf i := by
  intro s
  induction s with
  | nil => intro x buf i _; rfl
  | cons c rest ih =>
      intro x buf i h
      simp only [render_font_char_to_buffer]
      rw [ih _ _ i h]
      exact renderCharCols_out f numMax _ x _ 0 buf i h

theorem renderCharCols_changes (f : Font) (fdo : Nat) (x : Int) :
    ∀ (fuel col : Nat) (buf : Nat → Nat) (i : Nat),
      -224 ≤ x → x + (col : Int) + (fuel : Int) ≤ 248 →
      renderCharCols f 4 fdo x fuel col buf i ≠ buf i →
      ∃ col' : Nat, col ≤ col' ∧ col' < col + fuel ∧ (i : Int) = 32 - (x + col' + 1) := by
  intro fuel
  induction fuel with
  | zero => intro col buf i _ _ hne; exact absurd rfl hne
  | succ fuel ih =>
      intro col buf i hx hz hne
      simp only [renderCharCols] at hne
      by_cases hc : 4 * 8 + 8 ≤ colOffset 4 x col
      · rw [if_pos hc] at hne
        exact absurd rfl hne
      · rw [if_neg hc] at hne
        by_cases heq : renderCharCols f 4 fdo x fuel (col + 1)
            (Function.update buf (colOffset 4 x col) (reverse (f.byte (fdo + 1 + col)))) i
            = Function.update buf (colOffset 4 x col) (reverse (f.byte (fdo + 1 + col))) i
        · rw [heq] at hne
          have hio : i = colOffset 4 x col := by
            by_contra hne2
            exact hne (Function.update_noteq hne2 _ buf)
          have hcast := colOffset_cast 4 x col
          refine ⟨col, le_refl col, by omega, ?_⟩
          rw [hio]
          omega
        · obtain ⟨col', h1, h2, h3⟩ := ih (col + 1)
            (Function.update buf (colOffset 4 x col) (reverse (f.byte (fdo + 1 + col)))) i hx
            (by push_cast; push_cast at hz; omega) heq
          exact ⟨col', by omega, by omega, h3⟩

theorem render_font_char_to_buffer_changes (f : Font) :
    ∀ (s : List Nat) (x : Int) (buf : Nat → Nat) (i : Nat),
      -224 ≤ x → x + totalAdvance f s ≤ 248 →
      render_font_char_to_buffer f 4 s x buf i ≠ buf i →
      (i : Int) ∈ stringTargets f s x := by
  intro s
  induction s with
  | nil => intro x buf i _ _ hne; exact absurd rfl hne
  | cons c rest ih =>
      intro x buf i hx hz hne
      simp only [render_font_char_to_buffer] at hne
      simp only [totalAdvance] at hz
      simp only [stringTargets]
      by_cases heq : render_font_char_to_buffer f 4 rest (x + f.byte (1 + f.byte 0 * c) + 1)
          (renderCharCols f 4 (1 + f.byte 0 * c) x (f.byte (1 + f.byte 0 * c)) 0 buf) i =
          renderCharCols f 4 (1 + f.byte 0 * c) x (f.byte (1 + f.byte 0 * c)) 0 buf i
      · rw [heq] at hne
        obtain ⟨col', h1, h2, h3⟩ := renderCharCols_changes f (1 + f.byte 0 * c) x
          (f.byte (1 + f.byte 0 * c)) 0 buf i hx (by push_cast; push_cast at hz; omega) hne
        apply List.mem_append_left
        have hcol : col' < f.byte (1 + f.byte 0 * c) := by omega
        have hmem : ((NUM_MAX * 8 : Int) - (x + (col' : Int) + 1)) ∈
            charTargets x (f.byte (1 + f.byte 0 * c)) := by
          simp only [charTargets]
          exact List.mem_map_of_mem _ (List.mem_range.2 hcol)
        have he : (i : Int) = (NUM_MAX * 8 : Int) - (x + (col' : Int) + 1) := by
          rw [h3]
          norm_num [NUM_MAX]
        rw [he]
        exact hmem
      · have hmem := ih (x + f.byte (1 + f.byte 0 * c) + 1)
          (renderCharCols f 4 (1 + f.byte 0 * c) x (f.byte (1 + f.byte 0 * c)) 0 buf) i
          (by omega) (by push_cast at hz; omega) heq
        exact List.mem_append_right _ hmem

/-- Claim C2 (corrected, counterexample): a glyph column whose target index
falls outside the frame buffer is **not** always dropped.  With a font whose
glyph for character 65 has width 1 and starting `x_offset = -225`, the single
column's intended target index is `NUM_MAX*8 - (-225 + 0 + 1) = 256`, outside
the buffer — yet the `(uint8_t)` conversion wraps 256 to 0, the guard
`offset >= NUM_MAX*8 + 8` passes, and buffer cell 0 is overwritten (with the
reversed column byte 128), corrupting an unrelated buffer position. -/
theorem render_font_char_to_buffer_wrap_counterexample :
    render_font_char_to_buffer cexFont NUM_MAX [65] (-225) (fun _ => 0) 0 = 128 ∧
    (128 : Nat) ≠ 0 ∧
    charTargets (-225) (cexFont.byte (1 + cexFont.byte 0 * 65)) = [256] ∧
    ¬ ((0 : Int) ≤ 256 ∧ (256 : Int) < NUM_MAX * 8 + 8) := by
  refine ⟨by decide, by decide, by decide, by decide⟩

/-- Claim C2 (amended): (1) for every font, module count, string, starting
offset and buffer, `render_font_char_to_buffer` writes only inside the frame
buffer — every index at or beyond `NUM_MAX*8 + 8` is left untouched; (2) as
long as the layout stays inside the zone where the `(uint8_t)` offset cannot
wrap modulo 256 (`-224 ≤ x_offset` and `x_offset` plus the string's total
advance at most 248), a buffer cell can change only if it is the exact
in-bounds target index of some glyph column — so columns whose target index
falls outside the buffer are dropped without being written, and cells not
targeted (in particular those written for earlier in-bounds columns of other
glyphs) are left intact. -/
theorem render_font_char_to_buffer_bounds_amended (f : Font) (numMax : Nat)
    (s : List Nat) (x : Int) (buf : Nat → Nat) (i : Nat) :
    (numMax * 8 + 8 ≤ i → render_font_char_to_buffer f numMax s x buf i = buf i) ∧
    (-224 ≤ x → x + totalAdvance f s ≤ 248 →
      render_font_char_to_buffer f NUM_MAX s x buf i ≠ buf i →
      (i : Int) ∈ stringTargets f s x) := by
  constructor
  · intro h
    exact render_font_char_to_buffer_out f numMax s x buf i h
  · intro hx hz hne
    exact render_font_char_to_buffer_changes f s x buf i hx hz hne

/-- Witness for C2 (amended): with the concrete width-1 font, a rendering of
the one-character string at `x_offset = 0` leaves the out-of-buffer index 45
untouched, and the only cell it changes (index 31) is the column's true target
index. -/
theorem render_font_char_to_buffer_bounds_amended_witness :
    render_font_char_to_buffer cexFont NUM_MAX [65] 0 (fun _ => 0) 45 = 0 ∧
    ((31 : Int) ∈ stringTargets cexFont [65] 0) := by
  constructor
  · exact (render_font_char_to_buffer_bounds_amended cexFont NUM_MAX [65] 0
      (fun _ => 0) 45).1 (by decide)
  · exact (render_font_char_to_buffer_bounds_amended cexFont NUM_MAX [65] 0
      (fun _ => 0) 31).2 (by decide) (by decide) (by decide)
